import Mathlib

/-!
Verification of the A2A (Agent-to-Agent) protocol core of this repository:
the pydantic data model in `app/common/types.py` and the agent-card
resolver in `app/common/client/card_resolver.py`, together with the task
state machine described by the specification.

JSON documents are modelled by the inductive type `Json`; pydantic model
construction (`Model.model_validate` / keyword construction) is modelled by
`validate` functions returning `Except String α`, following the source
field declarations: a required field errors when absent, an optional field
with default `None` maps absence and JSON null to `none`, and
`default_factory` fields draw their value from an explicit freshness
parameter.  Python `datetime` values are modelled by an abstract clock
value of type `Nat` supplied at construction time, and `uuid4().hex` by
`uuidHex` applied to a freshness parameter.
-/

namespace A2A

/-- A JSON value: null, boolean, number, string, array or object.
Objects are association lists; lookup returns the first binding. -/
inductive Json where
  | null : Json
  | bool : Bool → Json
  | num : Int → Json
  | str : String → Json
  | arr : List Json → Json
  | obj : List (String × Json) → Json

/-- First binding for a key in an association list. -/
def lookupKey (l : List (String × Json)) (k : String) : Option Json :=
  match l with
  | [] => none
  | (k', v) :: rest => if k' = k then some v else lookupKey rest k

/-- Field lookup on a JSON value: `none` on non-objects and absent keys. -/
def Json.lookup (j : Json) (k : String) : Option Json :=
  match j with
  | Json.obj l => lookupKey l k
  | _ => none

/-- Required `str` field: present string succeeds, anything else errors. -/
def reqStr (v : Option Json) (fld : String) : Except String String :=
  match v with
  | some (Json.str s) => Except.ok s
  | some _ => Except.error (fld ++ ": string expected")
  | none => Except.error (fld ++ ": field required")

/-- Optional `str | None = None` field: absent or null gives `none`. -/
def optStr (v : Option Json) (fld : String) : Except String (Option String) :=
  match v with
  | none => Except.ok none
  | some Json.null => Except.ok none
  | some (Json.str s) => Except.ok (some s)
  | some _ => Except.error (fld ++ ": string or null expected")

/-- Optional `int | None = None` field. -/
def optInt (v : Option Json) (fld : String) : Except String (Option Int) :=
  match v with
  | none => Except.ok none
  | some Json.null => Except.ok none
  | some (Json.num n) => Except.ok (some n)
  | some _ => Except.error (fld ++ ": integer or null expected")

/-- Optional `bool = default` field of `AgentCapabilities`: absence gives
the declared default. -/
def defBool (v : Option Json) (d : Bool) (fld : String) : Except String Bool :=
  match v with
  | none => Except.ok d
  | some (Json.bool b) => Except.ok b
  | some _ => Except.error (fld ++ ": boolean expected")

/-- Optional `dict[str, Any] | None = None` metadata field. -/
def optDict (v : Option Json) (fld : String) :
    Except String (Option (List (String × Json))) :=
  match v with
  | none => Except.ok none
  | some Json.null => Except.ok none
  | some (Json.obj m) => Except.ok (some m)
  | some _ => Except.error (fld ++ ": object or null expected")

/-- Required `dict[str, Any]` field (the `data` of a `DataPart`). -/
def reqDict (v : Option Json) (fld : String) :
    Except String (List (String × Json)) :=
  match v with
  | some (Json.obj m) => Except.ok m
  | some _ => Except.error (fld ++ ": object expected")
  | none => Except.error (fld ++ ": field required")

/-- Required field of submodel type: present value passed through. -/
def reqField (v : Option Json) (fld : String) : Except String Json :=
  match v with
  | some x => Except.ok x
  | none => Except.error (fld ++ ": field required")

/-- A JSON array whose elements are all strings, as a `List String`. -/
def strList (l : List Json) : Except String (List String) :=
  match l with
  | [] => Except.ok []
  | Json.str s :: rest => (strList rest).map (fun t => s :: t)
  | _ :: _ => Except.error "string expected in list"

/-- Required `List[str]` field. -/
def reqStrList (v : Option Json) (fld : String) : Except String (List String) :=
  match v with
  | some (Json.arr l) => strList l
  | some _ => Except.error (fld ++ ": array expected")
  | none => Except.error (fld ++ ": field required")

/-- Optional `List[str] | None = None` field. -/
def optStrList (v : Option Json) (fld : String) :
    Except String (Option (List String)) :=
  match v with
  | none => Except.ok none
  | some Json.null => Except.ok none
  | some (Json.arr l) => (strList l).map some
  | some _ => Except.error (fld ++ ": array or null expected")

/-- `List[str] = [dflt]` field of `AgentCard`: absence gives the default. -/
def defStrList (v : Option Json) (d : List String) (fld : String) :
    Except String (List String) :=
  match v with
  | none => Except.ok d
  | some (Json.arr l) => strList l
  | some _ => Except.error (fld ++ ": array expected")

/-- The file payload of a `FilePart`; all four fields are declared
`str | None = None` in the source. -/
structure FileContent where
  name : Option String := none
  mimeType : Option String := none
  bytes : Option String := none
  uri : Option String := none
deriving DecidableEq

/-- Python truthiness of a `str | None` value: `None` and the empty
string are falsy, every other string is truthy. -/
def truthy : Option String → Bool
  | none => false
  | some s => !(s = "")

/-- The `model_validator(mode=after)` of `FileContent`: it tests the
truthiness of `self.bytes` and `self.uri`, erroring when neither is
truthy and when both are. -/
def FileContent.check_content (f : FileContent) : Except String FileContent :=
  if !(truthy f.bytes || truthy f.uri) then
    Except.error "Either bytes or uri must be present in the file data"
  else if truthy f.bytes && truthy f.uri then
    Except.error "Only one of bytes or uri can be present in the file data"
  else
    Except.ok f

/-- Construction of a `FileContent` from JSON: the four optional string
fields are read, then the model validator `check_content` runs. -/
def FileContent.validate (j : Json) : Except String FileContent := do
  let name ← optStr (j.lookup "name") "name"
  let mimeType ← optStr (j.lookup "mimeType") "mimeType"
  let bytes ← optStr (j.lookup "bytes") "bytes"
  let uri ← optStr (j.lookup "uri") "uri"
  FileContent.check_content ⟨name, mimeType, bytes, uri⟩

/-- Hexadecimal digit characters, lowercase, as Python hex formatting
produces them. -/
def hexDigit (n : Nat) : Char :=
  if n < 10 then Char.ofNat (48 + n) else Char.ofNat (87 + n)

/-- Model of Python `uuid4().hex`: the 32-character lowercase padded
hexadecimal rendering of a 128-bit value, drawn from the freshness
parameter `n`. -/
def uuidHex (n : Nat) : String :=
  ⟨(List.range 32).map (fun i => hexDigit (n / 16 ^ (31 - i) % 16))⟩

/-- A content fragment: the discriminated `type` union of `TextPart`,
`FilePart` and `DataPart`. -/
inductive Part where
  | text (text : String) (metadata : Option (List (String × Json)))
  | file (file : FileContent) (metadata : Option (List (String × Json)))
  | data (data : List (String × Json)) (metadata : Option (List (String × Json)))

/-- Construction of one `Part`, discriminated by its `type` field:
`text` needs a string `text`, `file` a valid `FileContent` under `file`,
`data` an object under `data`; any other tag is rejected. -/
def Part.validate (j : Json) : Except String Part :=
  match j.lookup "type" with
  | some (Json.str "text") => do
      let text ← reqStr (j.lookup "text") "text"
      let metadata ← optDict (j.lookup "metadata") "metadata"
      Except.ok (Part.text text metadata)
  | some (Json.str "file") => do
      let fj ← reqField (j.lookup "file") "file"
      let file ← FileContent.validate fj
      let metadata ← optDict (j.lookup "metadata") "metadata"
      Except.ok (Part.file file metadata)
  | some (Json.str "data") => do
      let data ← reqDict (j.lookup "data") "data"
      let metadata ← optDict (j.lookup "metadata") "metadata"
      Except.ok (Part.data data metadata)
  | _ => Except.error "type: no matching discriminator"

/-- A protocol message: a role and an ordered sequence of parts. -/
structure Message where
  role : String
  parts : List Part
  metadata : Option (List (String × Json)) := none

/-- All elements of a JSON array validated as parts. -/
def partList (l : List Json) : Except String (List Part) :=
  match l with
  | [] => Except.ok []
  | p :: rest => do
      let part ← Part.validate p
      let parts ← partList rest
      Except.ok (part :: parts)

/-- The `role` field of a `Message`: the literal `user` or `agent`. -/
def roleParse (v : Option Json) : Except String String :=
  match v with
  | some (Json.str "user") => Except.ok "user"
  | some (Json.str "agent") => Except.ok "agent"
  | _ => Except.error "role: literal user or agent expected"

/-- The required `parts` field of a `Message`. -/
def partsParse (v : Option Json) : Except String (List Part) :=
  match v with
  | some (Json.arr l) => partList l
  | some _ => Except.error "parts: array expected"
  | none => Except.error "parts: field required"

/-- Construction of a `Message`: `role` is the literal `user` or `agent`,
`parts` a required list of parts, `metadata` optional. -/
def Message.validate (j : Json) : Except String Message := do
  let role ← roleParse (j.lookup "role")
  let parts ← partsParse (j.lookup "parts")
  let metadata ← optDict (j.lookup "metadata") "metadata"
  Except.ok ⟨role, parts, metadata⟩

/-- Authentication info carried inside a push-notification config. -/
structure AuthenticationInfo where
  schemes : List String
  credentials : Option String := none

/-- Construction of `AuthenticationInfo`: `schemes` is a required list
of strings, `credentials` optional. -/
def AuthenticationInfo.validate (j : Json) : Except String AuthenticationInfo := do
  let schemes ← reqStrList (j.lookup "schemes") "schemes"
  let credentials ← optStr (j.lookup "credentials") "credentials"
  Except.ok ⟨schemes, credentials⟩

/-- A per-task webhook registration target. -/
structure PushNotificationConfig where
  url : String
  token : Option String := none
  authentication : Option AuthenticationInfo := none

/-- The optional `authentication` field of `PushNotificationConfig`. -/
def optAuth (v : Option Json) : Except String (Option AuthenticationInfo) :=
  match v with
  | none => Except.ok none
  | some Json.null => Except.ok none
  | some aj => (AuthenticationInfo.validate aj).map some

/-- Construction of `PushNotificationConfig`: required `url`, optional
`token` and `authentication`. -/
def PushNotificationConfig.validate (j : Json) :
    Except String PushNotificationConfig := do
  let url ← reqStr (j.lookup "url") "url"
  let token ← optStr (j.lookup "token") "token"
  let authentication ← optAuth (j.lookup "authentication")
  Except.ok ⟨url, token, authentication⟩

/-- Parameters of `tasks/get`, `tasks/cancel`, push-notification get and
resubscribe: a required task `id` and optional metadata; `TaskQueryParams`
adds an optional `historyLength`. -/
structure TaskIdParams where
  id : String
  metadata : Option (List (String × Json)) := none

/-- Construction of `TaskIdParams`. -/
def TaskIdParams.validate (j : Json) : Except String TaskIdParams := do
  let id ← reqStr (j.lookup "id") "id"
  let metadata ← optDict (j.lookup "metadata") "metadata"
  Except.ok ⟨id, metadata⟩

/-- Parameters of `tasks/get`: `TaskIdParams` plus `historyLength`. -/
structure TaskQueryParams where
  id : String
  metadata : Option (List (String × Json)) := none
  historyLength : Option Int := none

/-- Construction of `TaskQueryParams`. -/
def TaskQueryParams.validate (j : Json) : Except String TaskQueryParams := do
  let id ← reqStr (j.lookup "id") "id"
  let metadata ← optDict (j.lookup "metadata") "metadata"
  let historyLength ← optInt (j.lookup "historyLength") "historyLength"
  Except.ok ⟨id, metadata, historyLength⟩

/-- Parameters of `tasks/send` and `tasks/sendSubscribe`.  `sessionId`
is declared `str` with `default_factory=lambda: uuid4().hex`, so it is
never `None`. -/
structure TaskSendParams where
  id : String
  sessionId : String
  message : Message
  acceptedOutputModes : Option (List String) := none
  pushNotification : Option PushNotificationConfig := none
  historyLength : Option Int := none
  metadata : Option (List (String × Json)) := none

/-- The `sessionId` field of `TaskSendParams`: a string when present,
and the generated `uuid4().hex` value when absent. -/
def sidParse (v : Option Json) (fresh : Nat) : Except String String :=
  match v with
  | none => Except.ok (uuidHex fresh)
  | some (Json.str s) => Except.ok s
  | some _ => Except.error "sessionId: string expected"

/-- The required `message` field of `TaskSendParams`. -/
def msgParse (v : Option Json) : Except String Message :=
  match v with
  | some mj => Message.validate mj
  | none => Except.error "message: field required"

/-- The optional `pushNotification` field of `TaskSendParams`. -/
def optPush (v : Option Json) : Except String (Option PushNotificationConfig) :=
  match v with
  | none => Except.ok none
  | some Json.null => Except.ok none
  | some pj => (PushNotificationConfig.validate pj).map some

/-- Field-wise construction of `TaskSendParams` from the looked-up
values of its seven declared fields. -/
def TaskSendParams.build (vId vSid vMsg vAom vPn vHl vMd : Option Json)
    (fresh : Nat) : Except String TaskSendParams := do
  let id ← reqStr vId "id"
  let sessionId ← sidParse vSid fresh
  let message ← msgParse vMsg
  let acceptedOutputModes ← optStrList vAom "acceptedOutputModes"
  let pushNotification ← optPush vPn
  let historyLength ← optInt vHl "historyLength"
  let metadata ← optDict vMd "metadata"
  Except.ok ⟨id, sessionId, message, acceptedOutputModes, pushNotification,
    historyLength, metadata⟩

/-- Construction of `TaskSendParams` from a JSON document. -/
def TaskSendParams.validate (j : Json) (fresh : Nat) :
    Except String TaskSendParams :=
  TaskSendParams.build (j.lookup "id") (j.lookup "sessionId")
    (j.lookup "message") (j.lookup "acceptedOutputModes")
    (j.lookup "pushNotification") (j.lookup "historyLength")
    (j.lookup "metadata") fresh

/-- Parameters of `tasks/pushNotification/set`: a task `id` and a
required `pushNotificationConfig`. -/
structure TaskPushNotificationConfig where
  id : String
  pushNotificationConfig : PushNotificationConfig

/-- Construction of `TaskPushNotificationConfig`. -/
def TaskPushNotificationConfig.validate (j : Json) :
    Except String TaskPushNotificationConfig := do
  let id ← reqStr (j.lookup "id") "id"
  let cj ← reqField (j.lookup "pushNotificationConfig") "pushNotificationConfig"
  let cfg ← PushNotificationConfig.validate cj
  Except.ok ⟨id, cfg⟩

/-- A JSON-RPC message id: `int | str | None`, with `uuid4().hex`
generated when the field is absent. -/
inductive RpcId where
  | num (n : Int)
  | str (s : String)
  | null
deriving DecidableEq

/-- The `id` field of a `JSONRPCMessage`. -/
def idParse (v : Option Json) (fresh : Nat) : Except String RpcId :=
  match v with
  | none => Except.ok (RpcId.str (uuidHex fresh))
  | some Json.null => Except.ok RpcId.null
  | some (Json.num n) => Except.ok (RpcId.num n)
  | some (Json.str s) => Except.ok (RpcId.str s)
  | some _ => Except.error "id: int, string or null expected"

/-- The `jsonrpc` field: the literal string 2.0, defaulted when absent. -/
def jsonrpcParse (v : Option Json) : Except String String :=
  match v with
  | none => Except.ok "2.0"
  | some (Json.str "2.0") => Except.ok "2.0"
  | some _ => Except.error "jsonrpc: literal 2.0 expected"

/-- The fields shared by every JSON-RPC message (`JSONRPCMessage` in the
source): protocol version and correlation id. -/
structure Envelope where
  jsonrpc : String
  id : RpcId

/-- Construction of the shared envelope fields. -/
def Envelope.validate (j : Json) (fresh : Nat) : Except String Envelope := do
  let v ← jsonrpcParse (j.lookup "jsonrpc")
  let i ← idParse (j.lookup "id") fresh
  Except.ok ⟨v, i⟩

/-- A JSON-RPC error value: code, message and optional data. -/
structure JSONRPCError where
  code : Int
  message : String
  data : Option Json := none

/-- `-32700`, raised on a malformed JSON payload. -/
def JSONParseError : JSONRPCError :=
  { code := -32700, message := "Invalid JSON payload" }

/-- `-32600`, raised when the request envelope fails validation. -/
def InvalidRequestError : JSONRPCError :=
  { code := -32600, message := "Request payload validation error" }

/-- `-32601`, raised when `method` is not in the closed set. -/
def MethodNotFoundError : JSONRPCError :=
  { code := -32601, message := "Method not found" }

/-- `-32602`, raised when params fail the schema of the method. -/
def InvalidParamsError : JSONRPCError :=
  { code := -32602, message := "Invalid parameters" }

/-- `-32603`, raised on unexpected internal failure. -/
def InternalError : JSONRPCError :=
  { code := -32603, message := "Internal error" }

/-- `-32001`, raised when an operation references an unknown task id. -/
def TaskNotFoundError : JSONRPCError :=
  { code := -32001, message := "Task not found" }

/-- `-32002`, raised on cancel of a terminal task. -/
def TaskNotCancelableError : JSONRPCError :=
  { code := -32002, message := "Task cannot be canceled" }

/-- `-32003`, raised when the server lacks push capability. -/
def PushNotificationNotSupportedError : JSONRPCError :=
  { code := -32003, message := "Push Notification is not supported" }

/-- `-32004`, raised on an unimplemented capability. -/
def UnsupportedOperationError : JSONRPCError :=
  { code := -32004, message := "This operation is not supported" }

/-- `-32005`, raised on incompatible content types. -/
def ContentTypeNotSupportedError : JSONRPCError :=
  { code := -32005, message := "Incompatible content types" }

/-- Required `int` field. -/
def reqInt (v : Option Json) (fld : String) : Except String Int :=
  match v with
  | some (Json.num n) => Except.ok n
  | some _ => Except.error (fld ++ ": integer expected")
  | none => Except.error (fld ++ ": field required")

/-- Optional `Any | None = None` field: absent and null give `none`. -/
def anyOpt (v : Option Json) : Except String (Option Json) :=
  match v with
  | none => Except.ok none
  | some Json.null => Except.ok none
  | some x => Except.ok (some x)

/-- Construction of a `JSONRPCError` value from JSON. -/
def JSONRPCError.validate (j : Json) : Except String JSONRPCError := do
  let code ← reqInt (j.lookup "code") "code"
  let message ← reqStr (j.lookup "message") "message"
  let data ← anyOpt (j.lookup "data")
  Except.ok ⟨code, message, data⟩

/-- The optional `error` field of a response. -/
def errOpt (v : Option Json) : Except String (Option JSONRPCError) :=
  match v with
  | none => Except.ok none
  | some Json.null => Except.ok none
  | some ej => (JSONRPCError.validate ej).map some

/-- A JSON-RPC response envelope: the source declares `result` and
`error` as two independent optional fields with no validator relating
them. -/
structure JSONRPCResponse where
  jsonrpc : String
  id : RpcId
  result : Option Json := none
  error : Option JSONRPCError := none

/-- Construction of a `JSONRPCResponse` from JSON: envelope fields plus
the two optional fields `result` and `error`. -/
def JSONRPCResponse.validate (j : Json) (fresh : Nat) :
    Except String JSONRPCResponse := do
  let v ← jsonrpcParse (j.lookup "jsonrpc")
  let i ← idParse (j.lookup "id") fresh
  let result ← anyOpt (j.lookup "result")
  let error ← errOpt (j.lookup "error")
  Except.ok ⟨v, i, result, error⟩

/-- A parsed A2A request: the discriminated union of the seven typed
requests, each carrying the envelope fields and its params model. -/
inductive A2AReq where
  | sendTask (e : Envelope) (p : TaskSendParams)
  | sendTaskStreaming (e : Envelope) (p : TaskSendParams)
  | getTask (e : Envelope) (p : TaskQueryParams)
  | cancelTask (e : Envelope) (p : TaskIdParams)
  | setTaskPush (e : Envelope) (p : TaskPushNotificationConfig)
  | getTaskPush (e : Envelope) (p : TaskIdParams)
  | resubscribe (e : Envelope) (p : TaskIdParams)

/-- The `method` literal of each typed request. -/
def A2AReq.method : A2AReq → String
  | A2AReq.sendTask _ _ => "tasks/send"
  | A2AReq.sendTaskStreaming _ _ => "tasks/sendSubscribe"
  | A2AReq.getTask _ _ => "tasks/get"
  | A2AReq.cancelTask _ _ => "tasks/cancel"
  | A2AReq.setTaskPush _ _ => "tasks/pushNotification/set"
  | A2AReq.getTaskPush _ _ => "tasks/pushNotification/get"
  | A2AReq.resubscribe _ _ => "tasks/resubscribe"

/-- The closed set of A2A request methods. -/
def a2aMethods : List String :=
  ["tasks/send", "tasks/sendSubscribe", "tasks/get", "tasks/cancel",
   "tasks/pushNotification/set", "tasks/pushNotification/get",
   "tasks/resubscribe"]

/-- The discriminator value of a request document: its `method` field
when that is a string. -/
def methodTag (j : Json) : Option String :=
  match j.lookup "method" with
  | some (Json.str m) => some m
  | _ => none

/-- Construction of an A2A request (`A2ARequest` in the source): a
union discriminated on the `method` field dispatching to the typed
request with its method-specific params schema; any other `method`
value is rejected. -/
def A2ARequest.validate (j : Json) (freshId freshSession : Nat) :
    Except String A2AReq :=
  if methodTag j = some "tasks/send" then do
    let e ← Envelope.validate j freshId
    let pj ← reqField (j.lookup "params") "params"
    let p ← TaskSendParams.validate pj freshSession
    Except.ok (A2AReq.sendTask e p)
  else if methodTag j = some "tasks/sendSubscribe" then do
    let e ← Envelope.validate j freshId
    let pj ← reqField (j.lookup "params") "params"
    let p ← TaskSendParams.validate pj freshSession
    Except.ok (A2AReq.sendTaskStreaming e p)
  else if methodTag j = some "tasks/get" then do
    let e ← Envelope.validate j freshId
    let pj ← reqField (j.lookup "params") "params"
    let p ← TaskQueryParams.validate pj
    Except.ok (A2AReq.getTask e p)
  else if methodTag j = some "tasks/cancel" then do
    let e ← Envelope.validate j freshId
    let pj ← reqField (j.lookup "params") "params"
    let p ← TaskIdParams.validate pj
    Except.ok (A2AReq.cancelTask e p)
  else if methodTag j = some "tasks/pushNotification/set" then do
    let e ← Envelope.validate j freshId
    let pj ← reqField (j.lookup "params") "params"
    let p ← TaskPushNotificationConfig.validate pj
    Except.ok (A2AReq.setTaskPush e p)
  else if methodTag j = some "tasks/pushNotification/get" then do
    let e ← Envelope.validate j freshId
    let pj ← reqField (j.lookup "params") "params"
    let p ← TaskIdParams.validate pj
    Except.ok (A2AReq.getTaskPush e p)
  else if methodTag j = some "tasks/resubscribe" then do
    let e ← Envelope.validate j freshId
    let pj ← reqField (j.lookup "params") "params"
    let p ← TaskIdParams.validate pj
    Except.ok (A2AReq.resubscribe e p)
  else Except.error "method: no matching discriminator"

/-- The organization behind an agent. -/
structure AgentProvider where
  organization : String
  url : Option String := none

/-- Construction of `AgentProvider`: required `organization`. -/
def AgentProvider.validate (j : Json) : Except String AgentProvider := do
  let organization ← reqStr (j.lookup "organization") "organization"
  let url ← optStr (j.lookup "url") "url"
  Except.ok ⟨organization, url⟩

/-- Capability flags of an agent; every field defaults to `False`. -/
structure AgentCapabilities where
  streaming : Bool := false
  pushNotifications : Bool := false
  stateTransitionHistory : Bool := false
deriving DecidableEq

/-- Construction of `AgentCapabilities`: three defaulted booleans, so
the empty document is accepted. -/
def AgentCapabilities.validate (j : Json) : Except String AgentCapabilities := do
  let streaming ← defBool (j.lookup "streaming") false "streaming"
  let pushNotifications ← defBool (j.lookup "pushNotifications") false
    "pushNotifications"
  let stateTransitionHistory ← defBool (j.lookup "stateTransitionHistory")
    false "stateTransitionHistory"
  Except.ok ⟨streaming, pushNotifications, stateTransitionHistory⟩

/-- The authentication block of an agent card. -/
structure AgentAuthentication where
  schemes : List String
  credentials : Option String := none

/-- Construction of `AgentAuthentication`: required `schemes` list. -/
def AgentAuthentication.validate (j : Json) :
    Except String AgentAuthentication := do
  let schemes ← reqStrList (j.lookup "schemes") "schemes"
  let credentials ← optStr (j.lookup "credentials") "credentials"
  Except.ok ⟨schemes, credentials⟩

/-- One advertised skill of an agent. -/
structure AgentSkill where
  id : String
  name : String
  description : Option String := none
  tags : Option (List String) := none
  examples : Option (List String) := none
  inputModes : Option (List String) := none
  outputModes : Option (List String) := none

/-- Construction of `AgentSkill`: required `id` and `name`. -/
def AgentSkill.validate (j : Json) : Except String AgentSkill := do
  let id ← reqStr (j.lookup "id") "id"
  let name ← reqStr (j.lookup "name") "name"
  let description ← optStr (j.lookup "description") "description"
  let tags ← optStrList (j.lookup "tags") "tags"
  let examples ← optStrList (j.lookup "examples") "examples"
  let inputModes ← optStrList (j.lookup "inputModes") "inputModes"
  let outputModes ← optStrList (j.lookup "outputModes") "outputModes"
  Except.ok ⟨id, name, description, tags, examples, inputModes, outputModes⟩

/-- All elements of a JSON array validated as skills. -/
def skillList (l : List Json) : Except String (List AgentSkill) :=
  match l with
  | [] => Except.ok []
  | sj :: rest => do
      let s ← AgentSkill.validate sj
      let t ← skillList rest
      Except.ok (s :: t)

/-- The required `capabilities` field of an `AgentCard`. -/
def capsParse (v : Option Json) : Except String AgentCapabilities :=
  match v with
  | some cj => AgentCapabilities.validate cj
  | none => Except.error "capabilities: field required"

/-- The optional `provider` field of an `AgentCard`. -/
def provParse (v : Option Json) : Except String (Option AgentProvider) :=
  match v with
  | none => Except.ok none
  | some Json.null => Except.ok none
  | some pj => (AgentProvider.validate pj).map some

/-- The optional `authentication` field of an `AgentCard`. -/
def authParse (v : Option Json) : Except String (Option AgentAuthentication) :=
  match v with
  | none => Except.ok none
  | some Json.null => Except.ok none
  | some aj => (AgentAuthentication.validate aj).map some

/-- The required `skills` field of an `AgentCard`. -/
def skillsParse (v : Option Json) : Except String (List AgentSkill) :=
  match v with
  | some (Json.arr l) => skillList l
  | some _ => Except.error "skills: array expected"
  | none => Except.error "skills: field required"

/-- The discovery document of an agent.  The source declares `name`,
`url`, `version`, `capabilities` and `skills` without defaults, and
gives `defaultInputModes` and `defaultOutputModes` the one-element
text-mode list as default. -/
structure AgentCard where
  name : String
  description : Option String := none
  url : String
  provider : Option AgentProvider := none
  version : String
  documentationUrl : Option String := none
  capabilities : AgentCapabilities
  authentication : Option AgentAuthentication := none
  defaultInputModes : List String := ["text"]
  defaultOutputModes : List String := ["text"]
  skills : List AgentSkill

/-- Construction of an `AgentCard` from its JSON document. -/
def AgentCard.validate (j : Json) : Except String AgentCard := do
  let name ← reqStr (j.lookup "name") "name"
  let description ← optStr (j.lookup "description") "description"
  let url ← reqStr (j.lookup "url") "url"
  let provider ← provParse (j.lookup "provider")
  let version ← reqStr (j.lookup "version") "version"
  let documentationUrl ← optStr (j.lookup "documentationUrl")
    "documentationUrl"
  let capabilities ← capsParse (j.lookup "capabilities")
  let authentication ← authParse (j.lookup "authentication")
  let defaultInputModes ← defStrList (j.lookup "defaultInputModes") ["text"]
    "defaultInputModes"
  let defaultOutputModes ← defStrList (j.lookup "defaultOutputModes") ["text"]
    "defaultOutputModes"
  let skills ← skillsParse (j.lookup "skills")
  Except.ok ⟨name, description, url, provider, version, documentationUrl,
    capabilities, authentication, defaultInputModes, defaultOutputModes,
    skills⟩

/-- Python `rstrip` of slash characters, as applied to the base URL. -/
def rstripSlash (s : String) : String :=
  ⟨(s.data.reverse.dropWhile (fun c => c == '/')).reverse⟩

/-- Python `lstrip` of slash characters, as applied to the card path. -/
def lstripSlash (s : String) : String :=
  ⟨s.data.dropWhile (fun c => c == '/')⟩

/-- The card resolver: a normalized base URL and card path. -/
structure A2ACardResolver where
  base_url : String
  agent_card_path : String

/-- The resolver constructor: strips the trailing slashes of the base
URL and the leading slashes of the card path, which defaults to
`/.well-known/agent.json`. -/
def A2ACardResolver.make (base_url : String)
    (agent_card_path : String := "/.well-known/agent.json") :
    A2ACardResolver :=
  ⟨rstripSlash base_url, lstripSlash agent_card_path⟩

/-- The failure kinds `get_agent_card` can produce: the HTTP status
error of `raise_for_status`, the `A2AClientJSONError` wrapping a JSON
decoding failure, and the pydantic validation error that the source
does not catch. -/
inductive FetchError where
  | httpStatusError (code : Nat)
  | a2aClientJSONError (msg : String)
  | validationError (msg : String)

/-- Classification of one HTTP response by `get_agent_card`:
`raise_for_status` fails on status 400 and above; otherwise the body
either fails to decode as JSON (`A2AClientJSONError`) or is parsed as
an `AgentCard`, whose schema failure escapes as a validation error. -/
def handleResponse (code : Nat) (body : Except String Json) :
    Except FetchError AgentCard :=
  if 400 ≤ code then Except.error (FetchError.httpStatusError code)
  else
    match body with
    | Except.error m => Except.error (FetchError.a2aClientJSONError m)
    | Except.ok bj =>
      match AgentCard.validate bj with
      | Except.ok c => Except.ok c
      | Except.error m => Except.error (FetchError.validationError m)

/-- The resolver fetch: one GET of `base_url ++ / ++ agent_card_path`
against the HTTP client (modelled as a function from URL to status code
and decoded-or-undecodable body), classified by `handleResponse`. -/
def get_agent_card (r : A2ACardResolver)
    (client : String → Nat × Except String Json) :
    Except FetchError AgentCard :=
  let resp := client (r.base_url ++ "/" ++ r.agent_card_path)
  handleResponse resp.1 resp.2

/-- The task lifecycle states: a closed enumeration. -/
inductive TaskState where
  | SUBMITTED
  | WORKING
  | INPUT_REQUIRED
  | COMPLETED
  | CANCELED
  | FAILED
  | UNKNOWN
deriving DecidableEq

/-- The string value of each `TaskState` enum member. -/
def TaskState.value : TaskState → String
  | TaskState.SUBMITTED => "submitted"
  | TaskState.WORKING => "working"
  | TaskState.INPUT_REQUIRED => "input-required"
  | TaskState.COMPLETED => "completed"
  | TaskState.CANCELED => "canceled"
  | TaskState.FAILED => "failed"
  | TaskState.UNKNOWN => "unknown"

/-- The status of a task: state, optional message and the timestamp
stamped when the status value was constructed. -/
structure TaskStatus where
  state : TaskState
  message : Option Message := none
  timestamp : Nat

/-- Construction of a `TaskStatus` with the `timestamp` field left to
its `default_factory`: it is stamped with the clock reading `now` taken
at the moment of construction. -/
def TaskStatus.create (state : TaskState) (message : Option Message)
    (now : Nat) : TaskStatus :=
  ⟨state, message, now⟩

/-- An incremental output artifact of a task. -/
structure Artifact where
  name : Option String := none
  description : Option String := none
  parts : List Part
  metadata : Option (List (String × Json)) := none
  index : Int := 0
  append : Option Bool := none
  lastChunk : Option Bool := none

/-- The unit of work tracked by the protocol. -/
structure Task where
  id : String
  sessionId : Option String := none
  status : TaskStatus
  artifacts : Option (List Artifact) := none
  history : Option (List Message) := none
  metadata : Option (List (String × Json)) := none

/-- Modelled from the spec: the legal transition table of the task
state machine.  The enforcing task manager and task store are not among
the sources under verification (only `TaskState` itself is); the spec
fixes the table as submitted→working, working→input-required,
working→completed, working→canceled, working→failed and
input-required→working. -/
def legalTransitions : List (TaskState × TaskState) :=
  [(TaskState.SUBMITTED, TaskState.WORKING),
   (TaskState.WORKING, TaskState.INPUT_REQUIRED),
   (TaskState.WORKING, TaskState.COMPLETED),
   (TaskState.WORKING, TaskState.CANCELED),
   (TaskState.WORKING, TaskState.FAILED),
   (TaskState.INPUT_REQUIRED, TaskState.WORKING)]

/-- Modelled from the spec: the central status transition of the task
store.  A transition not in the legal table fails loudly with an error
and never coerces the state; a legal transition replaces the status of
the task by a newly constructed `TaskStatus` stamped with the clock
reading at the moment of the transition. -/
def update_status (t : Task) (s : TaskState) (message : Option Message)
    (now : Nat) : Except String Task :=
  if (t.status.state, s) ∈ legalTransitions then
    Except.ok { t with status := TaskStatus.create s message now }
  else
    Except.error "invalid state transition"

/-- Removal of a field from a JSON object; other values are unchanged. -/
def eraseField (j : Json) (k : String) : Json :=
  match j with
  | Json.obj l => Json.obj (l.filter (fun kv => kv.1 != k))
  | _ => j

/-- The sixteen characters of Python lowercase hexadecimal output. -/
def hexChars : List Char := "0123456789abcdef".data

/-- C2, counterexample: a `FileContent` whose `bytes` field is set to the
empty string and whose `uri` field is set to a non-empty string has both
fields set, yet `check_content` accepts it, because the validator tests
Python truthiness rather than field presence.  This refutes the claim
that validation fails whenever both `bytes` and `uri` are set. -/
theorem C2_counterexample :
    FileContent.check_content ⟨none, none, some "", some "file:///data.bin"⟩ =
      Except.ok ⟨none, none, some "", some "file:///data.bin"⟩ ∧
    (some "" : Option String) ≠ none ∧
    (some "file:///data.bin" : Option String) ≠ none := by
  refine ⟨rfl, ?_, ?_⟩ <;> decide

/-- C2, amended: `FileContent` validation succeeds exactly when exactly
one of `bytes` and `uri` is truthy (set to a non-empty string); it fails
when both are truthy and when neither is. -/
theorem C2_check_content_exactly_one_truthy (f : FileContent) :
    (FileContent.check_content f).isOk = true ↔ truthy f.bytes ≠ truthy f.uri := by
  unfold FileContent.check_content
  cases hb : truthy f.bytes <;> cases hu : truthy f.uri <;>
    simp [Except.isOk, Except.toBool]

/-- C2, witness: the amended characterisation evaluated at a concrete
`FileContent` carrying only a non-empty `uri`. -/
theorem C2_check_content_exactly_one_truthy_witness :
    (FileContent.check_content ⟨none, none, none, some "http://h/f.bin"⟩).isOk = true :=
  (C2_check_content_exactly_one_truthy ⟨none, none, none, some "http://h/f.bin"⟩).mpr
    (by decide)

/-- C10: `FileContent` validation tests truthiness, not presence: a value
with `bytes` set to the empty string and a non-empty `uri` passes even
though both fields are set, while a value with `bytes` set to the empty
string and `uri` absent is rejected as having neither payload. -/
theorem C10_check_content_truthiness :
    FileContent.check_content ⟨none, none, some "", some "http://example.com/f"⟩ =
      Except.ok ⟨none, none, some "", some "http://example.com/f"⟩ ∧
    (some "" : Option String) ≠ none ∧
    (some "http://example.com/f" : Option String) ≠ none ∧
    FileContent.check_content ⟨none, none, some "", none⟩ =
      Except.error "Either bytes or uri must be present in the file data" := by
  refine ⟨rfl, by decide, by decide, rfl⟩

/-- An `Except` bind succeeds exactly when both stages succeed. -/
theorem bind_ok {α β : Type} {e : Except String α} {f : α → Except String β}
    {b : β} : (e >>= f) = Except.ok b ↔ ∃ a, e = Except.ok a ∧ f a = Except.ok b := by
  cases e <;> simp [Bind.bind, Except.bind]

/-- Association-list lookup of a key after filtering that key out. -/
theorem lookupKey_erase_self (l : List (String × Json)) (k : String) :
    lookupKey (l.filter (fun kv => kv.1 != k)) k = none := by
  induction l with
  | nil => rfl
  | cons hd t ih =>
    obtain ⟨k0, v0⟩ := hd
    rw [List.filter_cons]
    by_cases hk : k0 = k
    · rw [if_neg (by simp [hk])]
      exact ih
    · rw [if_pos (by simp [hk])]
      show (if k0 = k then some v0
        else lookupKey (t.filter (fun kv => kv.1 != k)) k) = none
      rw [if_neg hk]
      exact ih

/-- Association-list lookup of other keys is unchanged by filtering. -/
theorem lookupKey_erase_ne (l : List (String × Json)) (k k' : String)
    (h : ¬k' = k) :
    lookupKey (l.filter (fun kv => kv.1 != k)) k' = lookupKey l k' := by
  induction l with
  | nil => rfl
  | cons hd t ih =>
    obtain ⟨k0, v0⟩ := hd
    rw [List.filter_cons]
    by_cases hk : k0 = k
    · rw [if_neg (by simp [hk])]
      rw [ih]
      show lookupKey t k' = if k0 = k' then some v0 else lookupKey t k'
      rw [if_neg (fun h0 => h (h0.symm.trans hk))]
    · rw [if_pos (by simp [hk])]
      show (if k0 = k' then some v0
          else lookupKey (t.filter (fun kv => kv.1 != k)) k') =
        if k0 = k' then some v0 else lookupKey t k'
      by_cases h0 : k0 = k'
      · rw [if_pos h0, if_pos h0]
      · rw [if_neg h0, if_neg h0]
        exact ih

/-- Erasing a field makes its lookup absent. -/
theorem lookup_eraseField_self (j : Json) (k : String) :
    (eraseField j k).lookup k = none := by
  cases j <;> simp [eraseField, Json.lookup, lookupKey_erase_self]

/-- Erasing a field leaves every other lookup unchanged. -/
theorem lookup_eraseField_ne (j : Json) (k k' : String) (h : ¬k' = k) :
    (eraseField j k).lookup k' = j.lookup k' := by
  cases j <;> simp [eraseField, Json.lookup, lookupKey_erase_ne _ _ _ h]

/-- Every value below sixteen renders as a lowercase hex character. -/
theorem hexDigit_mem_hexChars : ∀ m, m < 16 → hexDigit m ∈ hexChars := by decide

/-- `uuidHex` always produces exactly 32 characters. -/
theorem uuidHex_length (n : Nat) : (uuidHex n).length = 32 := by
  simp [uuidHex, String.length]

/-- Every character of a `uuidHex` value is a lowercase hex digit. -/
theorem uuidHex_mem_hexChars (n : Nat) :
    ∀ c ∈ (uuidHex n).data, c ∈ hexChars := by
  intro c hc
  simp only [uuidHex, List.mem_map, List.mem_range] at hc
  obtain ⟨i, _, rfl⟩ := hc
  exact hexDigit_mem_hexChars _ (Nat.mod_lt _ (by norm_num))

/-- Replacing the looked-up `sessionId` value by absence turns a
successful `TaskSendParams` construction into a successful construction
whose `sessionId` is the generated `uuid4().hex` value; no other field
changes. -/
theorem TaskSendParams.build_sessionId_default {vId vMsg vAom vPn vHl vMd :
    Option Json} {fresh : Nat} {vSid : Option Json} {p : TaskSendParams}
    (h : TaskSendParams.build vId vSid vMsg vAom vPn vHl vMd fresh =
      Except.ok p) :
    TaskSendParams.build vId none vMsg vAom vPn vHl vMd fresh =
      Except.ok { p with sessionId := uuidHex fresh } := by
  unfold TaskSendParams.build at h ⊢
  simp only [bind_ok] at h ⊢
  obtain ⟨id, hid, sid, _, msg, hmsg, aom, haom, pn, hpn, hl, hhl, md, hmd, hp⟩ := h
  cases Except.ok.inj hp
  exact ⟨id, hid, uuidHex fresh, rfl, msg, hmsg, aom, haom, pn, hpn, hl, hhl,
    md, hmd, rfl⟩

/-- C9: a `TaskSendParams` document with no `sessionId` key is never
rejected for that reason — erasing `sessionId` from any successfully
validated document still validates — and the generated `sessionId` is
`uuid4().hex`: a 32-character string of lowercase hexadecimal digits.
The field is declared `str`, so no value is ever `None`. -/
theorem C9_tasksendparams_sessionid (j : Json) (fresh : Nat)
    (p : TaskSendParams)
    (h : TaskSendParams.validate j fresh = Except.ok p) :
    (j.lookup "sessionId" = none → p.sessionId = uuidHex fresh) ∧
    TaskSendParams.validate (eraseField j "sessionId") fresh =
      Except.ok { p with sessionId := uuidHex fresh } ∧
    (uuidHex fresh).length = 32 ∧
    (∀ c ∈ (uuidHex fresh).data, c ∈ hexChars) := by
  refine ⟨?_, ?_, uuidHex_length fresh, uuidHex_mem_hexChars fresh⟩
  · intro hnone
    unfold TaskSendParams.validate at h
    rw [hnone] at h
    have h' := TaskSendParams.build_sessionId_default h
    rw [h] at h'
    exact congrArg TaskSendParams.sessionId (Except.ok.inj h')
  · unfold TaskSendParams.validate at h ⊢
    rw [lookup_eraseField_self,
      lookup_eraseField_ne j "sessionId" "id" (by decide),
      lookup_eraseField_ne j "sessionId" "message" (by decide),
      lookup_eraseField_ne j "sessionId" "acceptedOutputModes" (by decide),
      lookup_eraseField_ne j "sessionId" "pushNotification" (by decide),
      lookup_eraseField_ne j "sessionId" "historyLength" (by decide),
      lookup_eraseField_ne j "sessionId" "metadata" (by decide)]
    exact TaskSendParams.build_sessionId_default h

/-- C9, witness: a concrete document with `id` and `message` but no
`sessionId` validates after erasure, receiving the generated hex id. -/
theorem C9_tasksendparams_sessionid_witness :
    TaskSendParams.validate (eraseField (Json.obj [("id", Json.str "t1"),
        ("message", Json.obj [("role", Json.str "user"),
          ("parts", Json.arr [])])]) "sessionId") 0 =
      Except.ok ⟨"t1", uuidHex 0, ⟨"user", [], none⟩, none, none, none, none⟩ :=
  (C9_tasksendparams_sessionid (Json.obj [("id", Json.str "t1"),
      ("message", Json.obj [("role", Json.str "user"),
        ("parts", Json.arr [])])]) 0
    ⟨"t1", uuidHex 0, ⟨"user", [], none⟩, none, none, none, none⟩ rfl).2.1

/-- A string discriminator tag comes from a string `method` field. -/
theorem methodTag_eq_some {j : Json} {m : String}
    (h : methodTag j = some m) : j.lookup "method" = some (Json.str m) := by
  unfold methodTag at h
  cases hl : j.lookup "method" <;> rw [hl] at h
  · simp at h
  · rename_i v
    cases v <;> simp at h
    rw [h]

/-- C3: a JSON-RPC envelope validates as an A2A request only when its
`method` field is one of the seven literals of the closed set, the
resulting typed request being the one whose `method` literal matches;
any other `method` value is rejected. -/
theorem C3_a2arequest_closed_methods :
    (∀ (j : Json) (f g : Nat) (r : A2AReq),
      A2ARequest.validate j f g = Except.ok r →
        j.lookup "method" = some (Json.str (A2AReq.method r)) ∧
        A2AReq.method r ∈ a2aMethods) ∧
    (∀ (j : Json) (f g : Nat) (m : String),
      j.lookup "method" = some (Json.str m) → m ∉ a2aMethods →
        ∃ msg, A2ARequest.validate j f g = Except.error msg) := by
  constructor
  · intro j f g r h
    unfold A2ARequest.validate at h
    split_ifs at h with h1 h2 h3 h4 h5 h6 h7
    · simp only [bind_ok] at h
      obtain ⟨e, _, pj, _, p, _, hr⟩ := h
      cases Except.ok.inj hr
      exact ⟨methodTag_eq_some h1, (by decide : "tasks/send" ∈ a2aMethods)⟩
    · simp only [bind_ok] at h
      obtain ⟨e, _, pj, _, p, _, hr⟩ := h
      cases Except.ok.inj hr
      exact ⟨methodTag_eq_some h2, (by decide : "tasks/sendSubscribe" ∈ a2aMethods)⟩
    · simp only [bind_ok] at h
      obtain ⟨e, _, pj, _, p, _, hr⟩ := h
      cases Except.ok.inj hr
      exact ⟨methodTag_eq_some h3, (by decide : "tasks/get" ∈ a2aMethods)⟩
    · simp only [bind_ok] at h
      obtain ⟨e, _, pj, _, p, _, hr⟩ := h
      cases Except.ok.inj hr
      exact ⟨methodTag_eq_some h4, (by decide : "tasks/cancel" ∈ a2aMethods)⟩
    · simp only [bind_ok] at h
      obtain ⟨e, _, pj, _, p, _, hr⟩ := h
      cases Except.ok.inj hr
      exact ⟨methodTag_eq_some h5, (by decide : "tasks/pushNotification/set" ∈ a2aMethods)⟩
    · simp only [bind_ok] at h
      obtain ⟨e, _, pj, _, p, _, hr⟩ := h
      cases Except.ok.inj hr
      exact ⟨methodTag_eq_some h6, (by decide : "tasks/pushNotification/get" ∈ a2aMethods)⟩
    · simp only [bind_ok] at h
      obtain ⟨e, _, pj, _, p, _, hr⟩ := h
      cases Except.ok.inj hr
      exact ⟨methodTag_eq_some h7, (by decide : "tasks/resubscribe" ∈ a2aMethods)⟩
  · intro j f g m hm hnot
    have hm' : methodTag j = some m := by
      unfold methodTag
      rw [hm]
    unfold A2ARequest.validate
    split_ifs with h1 h2 h3 h4 h5 h6 h7
    · cases Option.some.inj (h1.symm.trans hm')
      exact absurd (by decide) hnot
    · cases Option.some.inj (h2.symm.trans hm')
      exact absurd (by decide) hnot
    · cases Option.some.inj (h3.symm.trans hm')
      exact absurd (by decide) hnot
    · cases Option.some.inj (h4.symm.trans hm')
      exact absurd (by decide) hnot
    · cases Option.some.inj (h5.symm.trans hm')
      exact absurd (by decide) hnot
    · cases Option.some.inj (h6.symm.trans hm')
      exact absurd (by decide) hnot
    · cases Option.some.inj (h7.symm.trans hm')
      exact absurd (by decide) hnot
    · exact ⟨_, rfl⟩

/-- C3, witness: a concrete `tasks/get` request parses to the typed get
request, and a concrete unknown method `tasks/delete` is rejected. -/
theorem C3_a2arequest_closed_methods_witness :
    ((Json.obj [("method", Json.str "tasks/get"),
        ("params", Json.obj [("id", Json.str "t1")])]).lookup "method" =
      some (Json.str (A2AReq.method (A2AReq.getTask
        ⟨"2.0", RpcId.str (uuidHex 0)⟩ ⟨"t1", none, none⟩))) ∧
      A2AReq.method (A2AReq.getTask ⟨"2.0", RpcId.str (uuidHex 0)⟩
        ⟨"t1", none, none⟩) ∈ a2aMethods) ∧
    ∃ msg, A2ARequest.validate
      (Json.obj [("method", Json.str "tasks/delete")]) 0 0 =
        Except.error msg :=
  ⟨C3_a2arequest_closed_methods.1 (Json.obj [("method", Json.str "tasks/get"),
      ("params", Json.obj [("id", Json.str "t1")])]) 0 0
      (A2AReq.getTask ⟨"2.0", RpcId.str (uuidHex 0)⟩ ⟨"t1", none, none⟩) rfl,
    C3_a2arequest_closed_methods.2 (Json.obj [("method", Json.str "tasks/delete")])
      0 0 "tasks/delete" rfl (by decide)⟩

/-- C4: each protocol error value carries exactly its specified code,
and each is a `JSONRPCError` with its documented default message and an
absent `data` payload. -/
theorem C4_error_codes :
    JSONParseError.code = -32700 ∧
    InvalidRequestError.code = -32600 ∧
    MethodNotFoundError.code = -32601 ∧
    InvalidParamsError.code = -32602 ∧
    InternalError.code = -32603 ∧
    TaskNotFoundError.code = -32001 ∧
    TaskNotCancelableError.code = -32002 ∧
    PushNotificationNotSupportedError.code = -32003 ∧
    UnsupportedOperationError.code = -32004 ∧
    ContentTypeNotSupportedError.code = -32005 ∧
    JSONParseError = (⟨-32700, "Invalid JSON payload", none⟩ : JSONRPCError) ∧
    TaskNotFoundError = (⟨-32001, "Task not found", none⟩ : JSONRPCError) := by
  exact ⟨rfl, rfl, rfl, rfl, rfl, rfl, rfl, rfl, rfl, rfl, rfl, rfl⟩

/-- C5, counterexample: a response document carrying both a `result`
and an `error` validates successfully, with both fields set on the
resulting value; the source declares no mutual-exclusion validator. -/
theorem C5_counterexample :
    JSONRPCResponse.validate (Json.obj [("result", Json.str "done"),
        ("error", Json.obj [("code", Json.num (-32603)),
          ("message", Json.str "boom")])]) 0 =
      Except.ok ⟨"2.0", RpcId.str (uuidHex 0), some (Json.str "done"),
        some ⟨-32603, "boom", none⟩⟩ := by
  rfl

/-- C5, amended: `result` and `error` are independent optional fields
of the response envelope; a response carrying any non-null `result`
together with any `error` object validates successfully, keeping both
fields set — mutual exclusion is not enforced. -/
theorem C5_result_error_not_exclusive (res : Json) (code : Int)
    (msg : String) (fresh : Nat) (h : res ≠ Json.null) :
    JSONRPCResponse.validate (Json.obj [("result", res),
        ("error", Json.obj [("code", Json.num code),
          ("message", Json.str msg)])]) fresh =
      Except.ok ⟨"2.0", RpcId.str (uuidHex fresh), some res,
        some ⟨code, msg, none⟩⟩ := by
  cases res
  · exact absurd rfl h
  · rfl
  · rfl
  · rfl
  · rfl
  · rfl

/-- C5, amended witness: the non-exclusive validation evaluated at a
concrete response carrying both fields. -/
theorem C5_result_error_not_exclusive_witness :
    JSONRPCResponse.validate (Json.obj [("result", Json.str "done"),
        ("error", Json.obj [("code", Json.num 7),
          ("message", Json.str "warn")])]) 3 =
      Except.ok ⟨"2.0", RpcId.str (uuidHex 3), some (Json.str "done"),
        some ⟨7, "warn", none⟩⟩ :=
  C5_result_error_not_exclusive (Json.str "done") 7 "warn" 3
    (fun hcontra => Json.noConfusion hcontra)

/-- C7, counterexample: a card document carrying only `name`, `url`,
`version`, `capabilities` and `skills` — with `defaultInputModes` and
`defaultOutputModes` absent — validates successfully, the two absent
mode lists receiving their declared default; this refutes the claim
that those two fields are required. -/
theorem C7_counterexample :
    AgentCard.validate (Json.obj [("name", Json.str "Database Agent"),
        ("url", Json.str "http://database-agent:10001/"),
        ("version", Json.str "1.0.0"),
        ("capabilities", Json.obj []),
        ("skills", Json.arr [])]) =
      Except.ok ⟨"Database Agent", none, "http://database-agent:10001/",
        none, "1.0.0", none, ⟨false, false, false⟩, none, ["text"],
        ["text"], []⟩ ∧
    (Json.obj [("name", Json.str "Database Agent"),
        ("url", Json.str "http://database-agent:10001/"),
        ("version", Json.str "1.0.0"),
        ("capabilities", Json.obj []),
        ("skills", Json.arr [])]).lookup "defaultInputModes" = none := by
  exact ⟨rfl, rfl⟩

/-- C7, amended: parsing a document as `AgentCard` succeeds only when
`name`, `url`, `version`, `capabilities` and `skills` are present;
`description`, `provider`, `documentationUrl` and `authentication` may
be absent, and `defaultInputModes` and `defaultOutputModes` may also be
absent, in which case they default to the one-element text-mode list. -/
theorem C7_agentcard_required_fields (j : Json) (c : AgentCard)
    (h : AgentCard.validate j = Except.ok c) :
    j.lookup "name" ≠ none ∧
    j.lookup "url" ≠ none ∧
    j.lookup "version" ≠ none ∧
    j.lookup "capabilities" ≠ none ∧
    j.lookup "skills" ≠ none ∧
    (j.lookup "defaultInputModes" = none → c.defaultInputModes = ["text"]) ∧
    (j.lookup "defaultOutputModes" = none → c.defaultOutputModes = ["text"]) := by
  unfold AgentCard.validate at h
  simp only [bind_ok] at h
  obtain ⟨nm, hnm, ds, hds, u, hu, pv, hpv, vs, hvs, du, hdu, cap, hcap,
    au, hau, dim, hdim, dom, hdom, sk, hsk, hc⟩ := h
  cases Except.ok.inj hc
  refine ⟨?_, ?_, ?_, ?_, ?_, ?_, ?_⟩
  · intro hn
    rw [hn] at hnm
    exact Except.noConfusion hnm
  · intro hn
    rw [hn] at hu
    exact Except.noConfusion hu
  · intro hn
    rw [hn] at hvs
    exact Except.noConfusion hvs
  · intro hn
    rw [hn] at hcap
    exact Except.noConfusion hcap
  · intro hn
    rw [hn] at hsk
    exact Except.noConfusion hsk
  · intro hn
    rw [hn] at hdim
    exact (Except.ok.inj hdim).symm
  · intro hn
    rw [hn] at hdom
    exact (Except.ok.inj hdom).symm

/-- C7, amended witness: the characterisation applied to the concrete
minimal card document. -/
theorem C7_agentcard_required_fields_witness :
    (Json.obj [("name", Json.str "Database Agent"),
        ("url", Json.str "http://database-agent:10001/"),
        ("version", Json.str "1.0.0"),
        ("capabilities", Json.obj []),
        ("skills", Json.arr [])]).lookup "name" ≠ none ∧
    ((Json.obj [("name", Json.str "Database Agent"),
        ("url", Json.str "http://database-agent:10001/"),
        ("version", Json.str "1.0.0"),
        ("capabilities", Json.obj []),
        ("skills", Json.arr [])]).lookup "defaultInputModes" = none →
      (⟨"Database Agent", none, "http://database-agent:10001/", none,
        "1.0.0", none, ⟨false, false, false⟩, none, ["text"], ["text"],
        []⟩ : AgentCard).defaultInputModes = ["text"]) :=
  ⟨(C7_agentcard_required_fields (Json.obj [("name", Json.str "Database Agent"),
      ("url", Json.str "http://database-agent:10001/"),
      ("version", Json.str "1.0.0"),
      ("capabilities", Json.obj []),
      ("skills", Json.arr [])])
      ⟨"Database Agent", none, "http://database-agent:10001/", none,
        "1.0.0", none, ⟨false, false, false⟩, none, ["text"], ["text"],
        []⟩ rfl).1,
   (C7_agentcard_required_fields (Json.obj [("name", Json.str "Database Agent"),
      ("url", Json.str "http://database-agent:10001/"),
      ("version", Json.str "1.0.0"),
      ("capabilities", Json.obj []),
      ("skills", Json.arr [])])
      ⟨"Database Agent", none, "http://database-agent:10001/", none,
        "1.0.0", none, ⟨false, false, false⟩, none, ["text"], ["text"],
        []⟩ rfl).2.2.2.2.2.1⟩

/-- A base URL with no trailing slash is unchanged by `rstrip`. -/
theorem rstripSlash_eq_self {s : String} (h : s.data.getLast? ≠ some '/') :
    rstripSlash s = s := by
  obtain ⟨l⟩ := s
  unfold rstripSlash
  congr 1
  cases hrev : l.reverse with
  | nil =>
    have hl : l = [] := by simpa using congrArg List.reverse hrev
    simp [hl]
  | cons a t =>
    have ha : (a == '/') = false := by
      apply beq_eq_false_iff_ne.mpr
      intro hac
      apply h
      rw [← List.head?_reverse, hrev, hac]
      rfl
    rw [List.dropWhile_cons, ha]
    simpa using (congrArg List.reverse hrev).symm

/-- C6, counterexample: with an HTTP client answering status 200 and
the decodable JSON body of an empty object, `get_agent_card` neither
returns an `AgentCard` nor fails with the `A2AClientJSONError` kind: the
body decodes but fails the `AgentCard` schema, and the pydantic
validation error escapes uncaught, a third outcome the claim omits. -/
theorem C6_counterexample :
    get_agent_card (A2ACardResolver.make "http://database-agent:10001")
        (fun _ => (200, Except.ok (Json.obj []))) =
      Except.error (FetchError.validationError "name: field required") ∧
    FetchError.validationError "name: field required" ≠
      FetchError.a2aClientJSONError "name: field required" := by
  exact ⟨rfl, fun hc => FetchError.noConfusion hc⟩

/-- C6, amended: `get_agent_card` issues one GET of the stripped base
URL joined to `.well-known/agent.json` (for a base URL without a
trailing slash, exactly `base_url ++ /.well-known/agent.json`); a
status of 400 or above fails with the HTTP status error kind, an
undecodable body fails with `A2AClientJSONError` — a kind distinct from
the HTTP one —, a decodable and schema-valid body returns the parsed
`AgentCard`, and a decodable but schema-invalid body fails with the
uncaught validation error kind. -/
theorem C6_get_agent_card_classified (base : String)
    (client : String → Nat × Except String Json) (code : Nat)
    (body : Except String Json)
    (hcl : client (rstripSlash base ++ "/" ++ ".well-known/agent.json") =
      (code, body)) :
    (A2ACardResolver.make base).agent_card_path = ".well-known/agent.json" ∧
    (base.data.getLast? ≠ some '/' →
      rstripSlash base ++ "/" ++ ".well-known/agent.json" =
        base ++ "/.well-known/agent.json") ∧
    (400 ≤ code → get_agent_card (A2ACardResolver.make base) client =
      Except.error (FetchError.httpStatusError code)) ∧
    (∀ m, code < 400 → body = Except.error m →
      get_agent_card (A2ACardResolver.make base) client =
        Except.error (FetchError.a2aClientJSONError m)) ∧
    (∀ bj c, code < 400 → body = Except.ok bj →
      AgentCard.validate bj = Except.ok c →
      get_agent_card (A2ACardResolver.make base) client = Except.ok c) ∧
    (∀ bj m, code < 400 → body = Except.ok bj →
      AgentCard.validate bj = Except.error m →
      get_agent_card (A2ACardResolver.make base) client =
        Except.error (FetchError.validationError m)) ∧
    (∀ m n, FetchError.a2aClientJSONError m ≠ FetchError.httpStatusError n) := by
  have hpath : lstripSlash "/.well-known/agent.json" =
      ".well-known/agent.json" := by decide
  have hg : get_agent_card (A2ACardResolver.make base) client =
      handleResponse code body := by
    simp only [get_agent_card, A2ACardResolver.make]
    rw [hpath, hcl]
  refine ⟨hpath, ?_, ?_, ?_, ?_, ?_, ?_⟩
  · intro h
    rw [rstripSlash_eq_self h, String.append_assoc]
    exact congrArg (fun t => base ++ t)
      (by decide : "/" ++ ".well-known/agent.json" = "/.well-known/agent.json")
  · intro h
    rw [hg]
    unfold handleResponse
    rw [if_pos h]
  · intro m h hb
    subst hb
    rw [hg]
    unfold handleResponse
    rw [if_neg (by omega)]
  · intro bj c h hb hv
    subst hb
    rw [hg]
    unfold handleResponse
    rw [if_neg (by omega)]
    simp only [hv]
  · intro bj m h hb hv
    subst hb
    rw [hg]
    unfold handleResponse
    rw [if_neg (by omega)]
    simp only [hv]
  · intro m n hc
    exact FetchError.noConfusion hc

/-- C6, amended witness: the classification applied to a concrete
client that answers status 200 with a decodable, schema-valid card
body. -/
theorem C6_get_agent_card_classified_witness :
    get_agent_card (A2ACardResolver.make "http://database-agent:10001")
        (fun _ => (200, Except.ok (Json.obj [("name", Json.str "Database Agent"),
          ("url", Json.str "http://database-agent:10001/"),
          ("version", Json.str "1.0.0"),
          ("capabilities", Json.obj []),
          ("skills", Json.arr [])]))) =
      Except.ok ⟨"Database Agent", none, "http://database-agent:10001/",
        none, "1.0.0", none, ⟨false, false, false⟩, none, ["text"],
        ["text"], []⟩ :=
  (C6_get_agent_card_classified "http://database-agent:10001"
      (fun _ => (200, Except.ok (Json.obj [("name", Json.str "Database Agent"),
        ("url", Json.str "http://database-agent:10001/"),
        ("version", Json.str "1.0.0"),
        ("capabilities", Json.obj []),
        ("skills", Json.arr [])]))) 200
      (Except.ok (Json.obj [("name", Json.str "Database Agent"),
        ("url", Json.str "http://database-agent:10001/"),
        ("version", Json.str "1.0.0"),
        ("capabilities", Json.obj []),
        ("skills", Json.arr [])])) rfl).2.2.2.2.1
    (Json.obj [("name", Json.str "Database Agent"),
      ("url", Json.str "http://database-agent:10001/"),
      ("version", Json.str "1.0.0"),
      ("capabilities", Json.obj []),
      ("skills", Json.arr [])])
    ⟨"Database Agent", none, "http://database-agent:10001/", none,
      "1.0.0", none, ⟨false, false, false⟩, none, ["text"], ["text"], []⟩
    (by omega) rfl rfl

/-- C1: `TaskState` is the closed seven-state enumeration, and every
attempted status transition whose pair of states is not in the legal
table `{submitted→working, working→input-required, working→completed,
working→canceled, working→failed, input-required→working}` is rejected
with a loud error by the central `update_status`, never coerced. -/
theorem C1_illegal_transitions_rejected (t : Task) (s : TaskState)
    (m : Option Message) (now : Nat)
    (h : (t.status.state, s) ∉ legalTransitions) :
    update_status t s m now = Except.error "invalid state transition" ∧
    (∀ st : TaskState, st = TaskState.SUBMITTED ∨ st = TaskState.WORKING ∨
      st = TaskState.INPUT_REQUIRED ∨ st = TaskState.COMPLETED ∨
      st = TaskState.CANCELED ∨ st = TaskState.FAILED ∨
      st = TaskState.UNKNOWN) := by
  constructor
  · unfold update_status
    rw [if_neg h]
  · intro st
    cases st <;> tauto

/-- C1, witness: the rejection evaluated at a terminal task asked to
move back to working. -/
theorem C1_illegal_transitions_rejected_witness :
    update_status ⟨"t1", none, ⟨TaskState.COMPLETED, none, 5⟩, none, none,
        none⟩ TaskState.WORKING none 9 =
      Except.error "invalid state transition" :=
  (C1_illegal_transitions_rejected ⟨"t1", none,
      ⟨TaskState.COMPLETED, none, 5⟩, none, none, none⟩ TaskState.WORKING
      none 9 (by decide)).1

/-- C8: a successful status transition replaces the status of the task
by a newly constructed `TaskStatus` whose `timestamp` is the clock
reading taken at the moment of that construction; the rest of the task
is untouched, so transitions produce new status values rather than
editing fields of the previous one in place. -/
theorem C8_status_fresh_timestamp (t t' : Task) (s : TaskState)
    (m : Option Message) (now : Nat)
    (h : update_status t s m now = Except.ok t') :
    t'.status = TaskStatus.create s m now ∧
    t'.status.timestamp = now ∧
    t' = { t with status := TaskStatus.create s m now } := by
  unfold update_status at h
  by_cases hl : (t.status.state, s) ∈ legalTransitions
  · rw [if_pos hl] at h
    cases Except.ok.inj h
    exact ⟨rfl, rfl, rfl⟩
  · rw [if_neg hl] at h
    exact Except.noConfusion h

/-- C8, witness: a concrete submitted task moved to working at clock 7
carries a status constructed at clock 7. -/
theorem C8_status_fresh_timestamp_witness :
    (⟨"t1", none, ⟨TaskState.WORKING, none, 7⟩, none, none, none⟩ :
      Task).status = TaskStatus.create TaskState.WORKING none 7 :=
  (C8_status_fresh_timestamp ⟨"t1", none, ⟨TaskState.SUBMITTED, none, 3⟩,
      none, none, none⟩
    ⟨"t1", none, ⟨TaskState.WORKING, none, 7⟩, none, none, none⟩
    TaskState.WORKING none 7 rfl).1

end A2A
